import Mathlib

/-!
Verification of the `later` weekly-schedule renderer.

The source program (one Python module) has three parts:
* `DeferredDict` — a two-level key-value view with fallback lookup;
* `WeekdayTask` — a record for one scheduled item, whose `formatted_date`
  property computes a calendar date relative to "today" and a week offset
  and formats it through the process-wide locale;
* `render_template` — builds one `WeekdayTask` per `(weekday, descriptor)`
  pair of the document and hands the bindings to a template engine.

The embedding below models Python calendar dates by their proleptic
Gregorian ordinal (`datetime.date.toordinal`), so date arithmetic with
`timedelta` is integer arithmetic.  External collaborators (the host's
locale database, Python's `str.upper` on one character, and the jinja2
engine) are abstracted as a capability record `Host`; the process-wide
locale setting mutated by `locale.setlocale` is threaded as an explicit
state `GState`.  Python `dict`s are insertion-ordered association lists,
and the `KeyError`/`locale.Error` failures are the constructors of `Err`,
named after the spec's error taxonomy.
-/

namespace Later

/-- Error taxonomy of the renderer: `MissingField` is the `KeyError` on a
document's required top-level keys, `UnknownWeekday` the `KeyError` on
`WEEKDAY_MAP`, `KeyNotFound` the `KeyError` from `DeferredDict`,
`LocaleUnavailable` the `locale.Error` from `setlocale`, and `IndexError`
the (unreachable) `date_text[0]` on an empty string. -/
inductive Err where
  | UnknownWeekday
  | LocaleUnavailable
  | KeyNotFound
  | MissingField
  | IndexError
deriving DecidableEq

/-- A Python `dict` with string keys: an insertion-ordered association list. -/
abbrev PyDict (V : Type) : Type := List (String × V)

/-- `DeferredDict`: a dict that uses a different dict to search for missing
keys (the variable-inheritance view). -/
structure DeferredDict (V : Type) where
  data : PyDict V
  parent_data : PyDict V

/-- `DeferredDict.__getitem__`: return `data[key]` when present, otherwise
`parent_data[key]`, otherwise raise `KeyError` (spec: `KeyNotFound`). -/
def DeferredDict.getitem {V : Type} (d : DeferredDict V) (key : String) : Except Err V :=
  match d.data.lookup key with
  | some v => .ok v
  | none =>
    match d.parent_data.lookup key with
    | some v => .ok v
    | none => .error .KeyNotFound

/-- `WEEKDAY_MAP`: the fixed weekday-name → ordinal dict (Monday-first). -/
def WEEKDAY_MAP : PyDict Nat :=
  [("monday", 0), ("tuesday", 1), ("wednesday", 2), ("thursday", 3),
   ("friday", 4), ("saturday", 5), ("sunday", 6)]

/-- A task descriptor: the sub-dict under one weekday key.  `none` models an
absent key, read through Python's `dict.get` with a default. -/
structure TaskDescriptor (V : Type) where
  start_time : Option String
  end_time : Option String
  vars : Option (PyDict V)

/-- The parsed top-level document.  The code accesses exactly the keys
`week_tasks` and `variables`; `none` models the key being absent, which
surfaces as a `KeyError` (spec: `MissingField`). -/
structure Document (V : Type) where
  week_tasks : Option (PyDict (TaskDescriptor V))
  vars : Option (PyDict V)

/-- A constructed `WeekdayTask` record. -/
structure WeekdayTask (V : Type) where
  start_time : String
  end_time : String
  vars : DeferredDict V
  weekday : String
  week_offset : Int
  locale : String

/-- `WeekdayTask.__init__`: reads the descriptor's fields with defaults and
`parent_data["variables"]` (a `KeyError` — `MissingField` — when absent).
The weekday string is stored unvalidated. -/
def WeekdayTask.init {V : Type} (weekday : String) (data : TaskDescriptor V)
    (parent_data : Document V) (week_offset : Int) (locale : String) :
    Except Err (WeekdayTask V) :=
  match parent_data.vars with
  | none => .error .MissingField
  | some pv =>
    .ok { start_time := data.start_time.getD "00:00"
          end_time := data.end_time.getD "00:00"
          vars := ⟨data.vars.getD [], pv⟩
          weekday := weekday
          week_offset := week_offset
          locale := locale }

/-- `datetime.date.weekday` on an ordinal: ordinal 1 (0001-01-01) is a
Monday, so the weekday is `(ordinal - 1) mod 7` with Monday = 0. -/
def pyWeekday (d : Int) : Int := (d - 1) % 7

/-- The date computed inside `formatted_date`:
`week = today + timedelta(weeks=week_offset)`,
`first_day = week - timedelta(days=week.weekday())`,
`date = first_day + timedelta(days=WEEKDAY_MAP[self.weekday])`. -/
def taskDateOrd (today : Int) (week_offset : Int) (weekday : Nat) : Int :=
  let week := today + 7 * week_offset
  let first_day := week - pyWeekday week
  first_day + (weekday : Int)

/-- Length of each month in a non-leap year (month 1 = January). -/
def DAYS_IN_MONTH (m : Nat) : Nat :=
  match m with
  | 1 => 31 | 2 => 28 | 3 => 31 | 4 => 30 | 5 => 31 | 6 => 30
  | 7 => 31 | 8 => 31 | 9 => 30 | 10 => 31 | 11 => 30 | 12 => 31
  | _ => 0

/-- Days in a non-leap year before the first of month `m`. -/
def DAYS_BEFORE_MONTH (m : Nat) : Nat :=
  match m with
  | 1 => 0 | 2 => 31 | 3 => 59 | 4 => 90 | 5 => 120 | 6 => 151
  | 7 => 181 | 8 => 212 | 9 => 243 | 10 => 273 | 11 => 304 | 12 => 334
  | _ => 0

/-- Proleptic Gregorian ordinal → (year, month, day), following CPython's
`datetime._ord2ymd` (division is floor division, as in Python). -/
def ord2ymd (n0 : Int) : Int × Nat × Nat :=
  let n := n0 - 1
  let n400 := n / 146097
  let n := n % 146097
  let year := n400 * 400 + 1
  let n100 := n / 36524
  let n := n % 36524
  let n4 := n / 1461
  let n := n % 1461
  let n1 := n / 365
  let nn := (n % 365).toNat
  let year := year + n100 * 100 + n4 * 4 + n1
  if n1 == 4 || n100 == 4 then
    (year - 1, 12, 31)
  else
    let leapyear := n1 == 3 && (n4 != 24 || n100 == 3)
    let month := (nn + 50) / 32
    let preceding := DAYS_BEFORE_MONTH month + (if 2 < month && leapyear then 1 else 0)
    if nn < preceding then
      let month' := month - 1
      let preceding' :=
        preceding - (DAYS_IN_MONTH month' + (if month' == 2 && leapyear then 1 else 0))
      (year, month', nn - preceding' + 1)
    else
      (year, month, nn - preceding + 1)

/-- The calendar-naming data a locale provides: full weekday names (indexed
by the Monday-first ordinal 0..6) and full month names (indexed 1..12). -/
structure LocaleData where
  weekdayName : Nat → String
  monthName : Nat → String

/-- `date.strftime("%A, %-d %B")` under locale data `ld`: full weekday name,
comma, day of month without leading zero, space, full month name. -/
def strftimeAdB (ld : LocaleData) (d : Int) : String :=
  let ymd := ord2ymd d
  ld.weekdayName (pyWeekday d).toNat ++ ", " ++ toString ymd.2.2 ++ " " ++ ld.monthName ymd.2.1

/-- The process-wide mutable state: the current locale setting plus an
abstract remainder `other` standing for every other piece of process state,
used to express that the pipeline touches nothing but the locale. -/
structure GState (α : Type) where
  localeName : String
  other : α

/-- What the template engine can observe of one `WeekdayTask` binding:
its plain fields, variable lookup through the `DeferredDict`, and the
already-computed `formatted_date` text. -/
structure TaskView (V : Type) where
  weekday : String
  start_time : String
  end_time : String
  getVar : String → Except Err V
  formatted : String

/-- The external collaborators, abstracted: the host's locale database
(`setlocale` succeeds exactly on locales it contains), Python's
single-character `str.upper`, and the jinja2 engine as a pure
`render(source, bindings) -> text` function (it also receives the shared
`variables` dict; the `len` binding is derivable from the task list). -/
structure Host (V : Type) where
  localeDB : String → Option LocaleData
  upper : Char → Char
  engine : String → List (TaskView V) → PyDict V → Except Err String

/-- `WeekdayTask.formatted_date`: compute the task's date from "today",
set the process locale to `self.locale` (failing with `LocaleUnavailable`
when the host does not provide it, leaving the state unchanged), format the
date as `"%A, %-d %B"` under the locale just set, and uppercase the first
character, leaving the rest of the string unchanged. -/
def formattedDate {V α : Type} (host : Host V) (t : WeekdayTask V) (today : Int)
    (s : GState α) : Except Err (String × GState α) :=
  match WEEKDAY_MAP.lookup t.weekday with
  | none => .error .UnknownWeekday
  | some weekday =>
    let date := taskDateOrd today t.week_offset weekday
    match host.localeDB t.locale with
    | none => .error .LocaleUnavailable
    | some ld =>
      let s' : GState α := { localeName := t.locale, other := s.other }
      let date_text := strftimeAdB ld date
      match date_text.data with
      | [] => .error .IndexError
      | c :: rest => .ok (⟨host.upper c :: rest⟩, s')

/-- The list comprehension of `render_template`: one `WeekdayTask` per
`(key, value)` pair of `data["week_tasks"]`, in the dict's insertion
order; a failing construction aborts the whole comprehension. -/
def buildTasks {V : Type} (tds : PyDict (TaskDescriptor V)) (parent : Document V)
    (week_offset : Int) (locale : String) : Except Err (List (WeekdayTask V)) :=
  match tds with
  | [] => .ok []
  | (key, value) :: rest =>
    match WeekdayTask.init key value parent week_offset locale with
    | .error e => .error e
    | .ok t =>
      match buildTasks rest parent week_offset locale with
      | .error e => .error e
      | .ok ts => .ok (t :: ts)

/-- The template engine's accesses to the lazy `formatted_date` properties,
modelled as one access per task in task order, threading the process-wide
state through each access. -/
def evalDates {V α : Type} (host : Host V) (tasks : List (WeekdayTask V)) (today : Int)
    (s : GState α) : Except Err (List String × GState α) :=
  match tasks with
  | [] => .ok ([], s)
  | t :: rest =>
    match formattedDate host t today s with
    | .error e => .error e
    | .ok (txt, s') =>
      match evalDates host rest today s' with
      | .error e => .error e
      | .ok (txts, s'') => .ok (txt :: txts, s'')

/-- The binding view of one task, given its evaluated date text. -/
def WeekdayTask.view {V : Type} (t : WeekdayTask V) (txt : String) : TaskView V :=
  { weekday := t.weekday
    start_time := t.start_time
    end_time := t.end_time
    getVar := t.vars.getitem
    formatted := txt }

/-- Pair each task with its evaluated date text. -/
def mkViews {V : Type} (tasks : List (WeekdayTask V)) (texts : List String) :
    List (TaskView V) :=
  List.zipWith WeekdayTask.view tasks texts

/-- `render_template`: look up `data["week_tasks"]` (a `KeyError` —
`MissingField` — when absent, before anything else), build the task list,
look up `data["variables"]`, then run the template engine over the
bindings, threading the process-wide state through the engine's
`formatted_date` accesses. -/
def render_template {V α : Type} (host : Host V) (template : String) (data : Document V)
    (locale : String) (week_offset : Int) (today : Int) (s : GState α) :
    Except Err (String × GState α) :=
  match data.week_tasks with
  | none => .error .MissingField
  | some tds =>
    match buildTasks tds data week_offset locale with
    | .error e => .error e
    | .ok week_tasks =>
      match data.vars with
      | none => .error .MissingField
      | some vars =>
        match evalDates host week_tasks today s with
        | .error e => .error e
        | .ok (texts, s') =>
          match host.engine template (mkViews week_tasks texts) vars with
          | .error e => .error e
          | .ok out => .ok (out, s')

/-! Concrete fixtures used by the witness theorems: a small English locale
database, a host whose engine concatenates the formatted dates after the
template text, and a sample document. -/

/-- English calendar names for the witness host. -/
def testLD : LocaleData :=
  { weekdayName := fun n =>
      ["Monday", "Tuesday", "Wednesday", "Thursday", "Friday", "Saturday",
       "Sunday"].getD n "?"
    monthName := fun n =>
      ["?", "January", "February", "March", "April", "May", "June", "July",
       "August", "September", "October", "November", "December"].getD n "?" }

/-- A witness host: only `en_US` is installed, `upper` is ASCII uppercasing,
and the engine emits the template text followed by every formatted date. -/
def testHost : Host Nat :=
  { localeDB := fun l => if l = "en_US" then some testLD else none
    upper := Char.toUpper
    engine := fun t views _ => .ok (t ++ String.join (views.map TaskView.formatted)) }

/-- A witness task for Wednesday with a local variable shadowing nothing. -/
def testTask : WeekdayTask Nat :=
  { start_time := "09:00", end_time := "17:00"
    vars := ⟨[("b", 2)], [("a", 1)]⟩
    weekday := "wednesday", week_offset := 0, locale := "en_US" }

/-- A witness task keyed by a string outside the recognized weekday set. -/
def testBadTask : WeekdayTask Nat :=
  { start_time := "00:00", end_time := "00:00"
    vars := ⟨[], []⟩
    weekday := "funday", week_offset := 0, locale := "en_US" }

/-- A witness task descriptor. -/
def testDesc : TaskDescriptor Nat :=
  { start_time := some "09:00", end_time := none, vars := some [("b", 2)] }

/-- A witness document with one Monday task and one Friday task. -/
def testDoc : Document Nat :=
  { week_tasks := some [("monday", testDesc), ("friday", testDesc)]
    vars := some [("a", 1)] }

/-- The ordinal of 2026-10-12, a Monday, used as the witness "today". -/
def testToday : Int := 739901

/-- A witness process state, with an unrelated component `other = 41`. -/
def testState : GState Nat := { localeName := "C", other := 41 }

/-- A witness document lacking the `week_tasks` key. -/
def testDocNoTasks : Document Nat := { week_tasks := none, vars := some [("a", 1)] }

/-- A witness document lacking the `variables` key. -/
def testDocNoVars : Document Nat :=
  { week_tasks := some [("monday", testDesc)], vars := none }

/-! Helper lemmas. -/

/-- A key is found in `WEEKDAY_MAP` exactly when it is one of the seven
recognized weekday names. -/
lemma lookup_weekday_isSome (k : String) :
    (WEEKDAY_MAP.lookup k).isSome ↔ k ∈ WEEKDAY_MAP.map Prod.fst := by
  simp only [WEEKDAY_MAP, List.lookup, List.map, List.mem_cons, List.not_mem_nil, or_false]
  repeat' split
  all_goals simp_all [beq_iff_eq, beq_eq_false_iff_ne]

/-- A successful `formatted_date` leaves the process state with the task's
locale installed and every other component untouched. -/
lemma formattedDate_state {V α : Type} (host : Host V) (t : WeekdayTask V) (today : Int)
    (s : GState α) (out : String) (s' : GState α)
    (h : formattedDate host t today s = .ok (out, s')) :
    s'.localeName = t.locale ∧ s'.other = s.other := by
  rcases hw : WEEKDAY_MAP.lookup t.weekday with _ | wd
  · simp [formattedDate, hw] at h
  · rcases hdb : host.localeDB t.locale with _ | ld
    · simp [formattedDate, hw, hdb] at h
    · rcases hdt : (strftimeAdB ld (taskDateOrd today t.week_offset wd)).data with _ | ⟨c, rest⟩
      · simp [formattedDate, hw, hdb, hdt] at h
      · simp [formattedDate, hw, hdb, hdt] at h
        rw [← h.2]
        exact ⟨rfl, rfl⟩

/-- The text (or error) produced by `formatted_date` does not depend on the
incoming process state: the locale is set before the date is formatted. -/
lemma formattedDate_fst {V α β : Type} (host : Host V) (t : WeekdayTask V) (today : Int)
    (s1 : GState α) (s2 : GState β) :
    (formattedDate host t today s1).map Prod.fst
    = (formattedDate host t today s2).map Prod.fst := by
  rcases hw : WEEKDAY_MAP.lookup t.weekday with _ | wd <;>
    simp only [formattedDate, hw]
  · rfl
  · rcases hdb : host.localeDB t.locale with _ | ld <;> simp only [hdb]
    · rfl
    · rcases hdt : (strftimeAdB ld (taskDateOrd today t.week_offset wd)).data
        with _ | ⟨c, rest⟩ <;> simp only [hdt] <;> rfl

/-- The date texts collected over a task list do not depend on the incoming
process state. -/
lemma evalDates_fst {V α β : Type} (host : Host V) (ts : List (WeekdayTask V)) (today : Int)
    (s1 : GState α) (s2 : GState β) :
    (evalDates host ts today s1).map Prod.fst
    = (evalDates host ts today s2).map Prod.fst := by
  induction ts generalizing s1 s2 with
  | nil => rfl
  | cons t rest ih =>
    have hf := formattedDate_fst host t today s1 s2
    simp only [evalDates]
    rcases h1 : formattedDate host t today s1 with e1 | ⟨txt1, s1'⟩ <;>
      rcases h2 : formattedDate host t today s2 with e2 | ⟨txt2, s2'⟩ <;>
      rw [h1, h2] at hf <;> simp only [Except.map] at hf
    · injection hf with he
      subst he
      rfl
    · exact absurd hf (by simp)
    · exact absurd hf (by simp)
    · injection hf with he
      subst he
      have hrest := ih s1' s2'
      rcases r1 : evalDates host rest today s1' with f1 | ⟨txts1, s1''⟩ <;>
        rcases r2 : evalDates host rest today s2' with f2 | ⟨txts2, s2''⟩ <;>
        rw [r1, r2] at hrest <;> simp only [Except.map] at hrest
      · injection hrest with hee
        subst hee
        simp only [r1, r2]
        rfl
      · exact absurd hrest (by simp)
      · exact absurd hrest (by simp)
      · injection hrest with hee
        subst hee
        simp only [r1, r2]
        rfl

/-- Evaluating the date texts over a task list only ever touches the locale
component of the process state. -/
lemma evalDates_other {V α : Type} (host : Host V) (ts : List (WeekdayTask V))
    (today : Int) :
    ∀ (s : GState α) (txts : List String) (s' : GState α),
      evalDates host ts today s = .ok (txts, s') → s'.other = s.other := by
  induction ts with
  | nil =>
    intro s txts s' h
    simp only [evalDates] at h
    injection h with h'
    have hss : s = s' := congrArg Prod.snd h'
    rw [← hss]
  | cons t rest ih =>
    intro s txts s' h
    simp only [evalDates] at h
    rcases hf : formattedDate host t today s with e | ⟨txt, s1⟩ <;> simp only [hf] at h
    · exact absurd h (by simp)
    · rcases hr : evalDates host rest today s1 with e2 | ⟨txts2, s2⟩ <;>
        simp only [hr] at h
      · exact absurd h (by simp)
      · have hs : s2 = s' := by
          injection h with hh
          exact congrArg Prod.snd hh
        rw [← hs]
        rw [ih s1 txts2 s2 hr]
        exact (formattedDate_state host t today s txt s1 hf).2

/-- A successful render only ever touches the locale component of the
process state. -/
lemma render_other {V α : Type} (host : Host V) (template : String) (data : Document V)
    (locale : String) (week_offset today : Int) (s : GState α) (out : String)
    (s' : GState α)
    (h : render_template host template data locale week_offset today s = .ok (out, s')) :
    s'.other = s.other := by
  simp only [render_template] at h
  rcases hwt : data.week_tasks with _ | tds <;> simp only [hwt] at h
  · exact absurd h (by simp)
  · rcases hb : buildTasks tds data week_offset locale with e | L <;> simp only [hb] at h
    · exact absurd h (by simp)
    · rcases hv : data.vars with _ | vars <;> simp only [hv] at h
      · exact absurd h (by simp)
      · rcases hev : evalDates host L today s with e1 | ⟨txts, s1⟩ <;>
          simp only [hev] at h
        · exact absurd h (by simp)
        · rcases hen : host.engine template (mkViews L txts) vars with f | o <;>
            simp only [hen] at h
          · exact absurd h (by simp)
          · have h1 : s1 = s' := by
              injection h with hh
              exact congrArg Prod.snd hh
            rw [← h1]
            exact evalDates_other host L today s txts s1 hev

/-! The claims. -/

/-- C1: for every weekday name `d` in the recognized map with ordinal `wd`,
every integer `week_offset` `w` and fixed "today", the date computed by
`formatted_date` is `(today + 7*w)` minus the anchor date's weekday ordinal
plus `wd`; in particular for `monday` the date at offset 0 is today minus
today's weekday ordinal, at offset 1 that date plus 7 days, and at offset
-1 that date minus 7 days. -/
theorem C1_week_relative_date (d : String) (wd : Nat)
    (h : WEEKDAY_MAP.lookup d = some wd) (today w : Int) :
    taskDateOrd today w wd = (today + 7 * w) - pyWeekday (today + 7 * w) + (wd : Int)
    ∧ (∀ mo : Nat, WEEKDAY_MAP.lookup "monday" = some mo →
        taskDateOrd today 0 mo = today - pyWeekday today
        ∧ taskDateOrd today 1 mo = (today - pyWeekday today) + 7
        ∧ taskDateOrd today (-1) mo = (today - pyWeekday today) - 7) := by
  constructor
  · rfl
  · intro mo hmo
    simp [WEEKDAY_MAP, List.lookup] at hmo
    subst hmo
    simp only [taskDateOrd, pyWeekday]
    norm_num
    omega

/-- Witness for C1 at `d = "wednesday"`, `w = 5`, today = 2026-10-12. -/
theorem C1_week_relative_date_witness :
    WEEKDAY_MAP.lookup "wednesday" = some 2
    ∧ taskDateOrd 739901 5 2 = (739901 + 7 * 5) - pyWeekday (739901 + 7 * 5) + (2 : Int)
    ∧ taskDateOrd 739901 0 0 = 739901 - pyWeekday 739901 := by
  refine ⟨rfl, (C1_week_relative_date "wednesday" 2 rfl 739901 5).1, ?_⟩
  exact ((C1_week_relative_date "wednesday" 2 rfl 739901 5).2 0 rfl).1

/-- C2: `DeferredDict` lookup returns the primary mapping's value when the
key is present there (a task-local key shadows a document-level one),
otherwise the fallback mapping's value when present there, and fails with
`KeyNotFound` when the key is absent from both. -/
theorem C2_deferred_lookup {V : Type} (key : String) (p fb : PyDict V) :
    (∀ v, p.lookup key = some v → DeferredDict.getitem ⟨p, fb⟩ key = .ok v)
    ∧ (p.lookup key = none → ∀ v, fb.lookup key = some v →
        DeferredDict.getitem ⟨p, fb⟩ key = .ok v)
    ∧ (p.lookup key = none → fb.lookup key = none →
        DeferredDict.getitem ⟨p, fb⟩ key = .error .KeyNotFound) := by
  refine ⟨?_, ?_, ?_⟩
  · intro v hv
    simp [DeferredDict.getitem, hv]
  · intro hp v hv
    simp [DeferredDict.getitem, hp, hv]
  · intro hp hf
    simp [DeferredDict.getitem, hp, hf]

/-- Witness for C2 on the spec's example: document variables `a = 1`,
task-local variables `b = 2`, and the absent key `c`. -/
theorem C2_deferred_lookup_witness :
    DeferredDict.getitem (⟨[("b", 2)], [("a", 1)]⟩ : DeferredDict Nat) "a" = .ok 1
    ∧ DeferredDict.getitem (⟨[("b", 2)], [("a", 1)]⟩ : DeferredDict Nat) "b" = .ok 2
    ∧ DeferredDict.getitem (⟨[("b", 2)], [("a", 1)]⟩ : DeferredDict Nat) "c"
        = .error .KeyNotFound :=
  ⟨(C2_deferred_lookup "a" [("b", 2)] [("a", 1)]).2.1 rfl 1 rfl,
   (C2_deferred_lookup "b" [("b", 2)] [("a", 1)]).1 2 rfl,
   (C2_deferred_lookup "c" [("b", 2)] [("a", 1)]).2.2 rfl rfl⟩

/-- C3: reading `formatted_date` of a task whose weekday name is one of the
seven recognized names never fails with `UnknownWeekday`; for a task whose
weekday name is any other string it fails with `UnknownWeekday`. -/
theorem C3_unknown_weekday {V α : Type} (host : Host V) (t : WeekdayTask V) (today : Int)
    (s : GState α) :
    (t.weekday ∈ WEEKDAY_MAP.map Prod.fst →
        formattedDate host t today s ≠ .error .UnknownWeekday)
    ∧ (t.weekday ∉ WEEKDAY_MAP.map Prod.fst →
        formattedDate host t today s = .error .UnknownWeekday) := by
  constructor
  · intro hmem
    have hs := (lookup_weekday_isSome t.weekday).2 hmem
    rcases hl : WEEKDAY_MAP.lookup t.weekday with _ | wd
    · rw [hl] at hs
      simp at hs
    · simp only [formattedDate, hl]
      split
      · simp
      · split <;> simp
  · intro hmem
    have hnone : WEEKDAY_MAP.lookup t.weekday = none := by
      rcases hl : WEEKDAY_MAP.lookup t.weekday with _ | wd
      · rfl
      · exfalso
        exact hmem ((lookup_weekday_isSome t.weekday).1 (by simp [hl]))
    simp [formattedDate, hnone]

/-- Witness for C3: the recognized `"wednesday"` task does not fail with
`UnknownWeekday`, the `"funday"` task does. -/
theorem C3_unknown_weekday_witness :
    (testTask.weekday ∈ WEEKDAY_MAP.map Prod.fst
      ∧ formattedDate testHost testTask testToday testState ≠ .error .UnknownWeekday)
    ∧ (testBadTask.weekday ∉ WEEKDAY_MAP.map Prod.fst
      ∧ formattedDate testHost testBadTask testToday testState = .error .UnknownWeekday) :=
  ⟨⟨by decide, (C3_unknown_weekday testHost testTask testToday testState).1 (by decide)⟩,
   ⟨by decide, (C3_unknown_weekday testHost testBadTask testToday testState).2 (by decide)⟩⟩

/-- C4: a document missing the top-level `week_tasks` key, or the top-level
`variables` key, makes `render_template` fail with `MissingField`.  Both
conclusions hold for every host, so in particular for every template
engine: the failure happens before any template evaluation takes place. -/
theorem C4_missing_field {V α : Type} (host : Host V) (template : String)
    (data : Document V) (locale : String) (week_offset today : Int) (s : GState α) :
    (data.week_tasks = none →
        render_template host template data locale week_offset today s
          = .error .MissingField)
    ∧ (data.vars = none →
        render_template host template data locale week_offset today s
          = .error .MissingField) := by
  constructor
  · intro h
    simp [render_template, h]
  · intro h
    rcases hwt : data.week_tasks with _ | tds
    · simp [render_template, hwt]
    · rcases tds with _ | ⟨⟨k, v⟩, rest⟩
      · simp [render_template, hwt, buildTasks, h]
      · simp [render_template, hwt, buildTasks, WeekdayTask.init, h]

/-- Witness for C4 on a document without `week_tasks` and a document
without `variables`. -/
theorem C4_missing_field_witness :
    (testDocNoTasks.week_tasks = none
      ∧ render_template testHost "T" testDocNoTasks "en_US" 0 testToday testState
          = .error .MissingField)
    ∧ (testDocNoVars.vars = none
      ∧ render_template testHost "T" testDocNoVars "en_US" 0 testToday testState
          = .error .MissingField) :=
  ⟨⟨rfl, (C4_missing_field testHost "T" testDocNoTasks "en_US" 0 testToday testState).1 rfl⟩,
   ⟨rfl, (C4_missing_field testHost "T" testDocNoVars "en_US" 0 testToday testState).2 rfl⟩⟩

/-- C5: rendering the same template, document, locale and week offset on
the same "today" produces identical output text, whatever process state
each render starts from — in particular a second render on the same day,
started in the state the first render left behind, returns byte-identical
text, and any error outcome is identical as well. -/
theorem C5_render_deterministic {V α β : Type} (host : Host V) (template : String)
    (data : Document V) (locale : String) (week_offset today : Int)
    (s1 : GState α) (s2 : GState β) :
    (render_template host template data locale week_offset today s1).map Prod.fst
    = (render_template host template data locale week_offset today s2).map Prod.fst := by
  simp only [render_template]
  rcases hwt : data.week_tasks with _ | tds <;> simp only [hwt]
  · rfl
  · rcases hb : buildTasks tds data week_offset locale with e | L <;> simp only [hb]
    · rfl
    · rcases hv : data.vars with _ | vars <;> simp only [hv]
      · rfl
      · have he := evalDates_fst host L today s1 s2
        rcases r1 : evalDates host L today s1 with e1 | ⟨txts1, s1'⟩ <;>
          rcases r2 : evalDates host L today s2 with e2 | ⟨txts2, s2'⟩ <;>
          rw [r1, r2] at he <;> simp only [Except.map] at he
        · injection he with hee
          subst hee
          rfl
        · exact absurd he (by simp)
        · exact absurd he (by simp)
        · injection he with hee
          subst hee
          rcases hen : host.engine template (mkViews L txts1) vars with f | out <;>
            simp only [hen] <;> rfl

/-- C6: when the document has its `variables` key, the sequence bound as
`week_tasks` contains exactly one task per `(weekday_name, descriptor)`
pair of `document.week_tasks`, in the document's declared order: the list
has the same length, and the i-th task is the one constructed from the
i-th pair, keyed by that pair's weekday name. -/
theorem C6_task_sequence {V : Type} (tds : PyDict (TaskDescriptor V)) (parent : Document V)
    (week_offset : Int) (locale : String) (pv : PyDict V) (h : parent.vars = some pv) :
    ∃ L, buildTasks tds parent week_offset locale = .ok L
      ∧ L.length = tds.length
      ∧ ∀ i (hi : i < L.length) (hi' : i < tds.length),
          WeekdayTask.init (tds.get ⟨i, hi'⟩).1 (tds.get ⟨i, hi'⟩).2 parent week_offset locale
            = .ok (L.get ⟨i, hi⟩)
          ∧ (L.get ⟨i, hi⟩).weekday = (tds.get ⟨i, hi'⟩).1 := by
  induction tds with
  | nil =>
    exact ⟨[], rfl, rfl, fun i hi hi' => absurd hi' (by simp)⟩
  | cons kv rest ih =>
    obtain ⟨L, hL, hlen, hidx⟩ := ih
    obtain ⟨k, v⟩ := kv
    have hinit : ∃ t, WeekdayTask.init k v parent week_offset locale = .ok t
        ∧ t.weekday = k := by
      simp only [WeekdayTask.init, h]
      exact ⟨_, rfl, rfl⟩
    obtain ⟨t, ht, htw⟩ := hinit
    refine ⟨t :: L, ?_, by simp [hlen], ?_⟩
    · simp only [buildTasks]
      rw [ht, hL]
    · intro i hi hi'
      cases i with
      | zero => exact ⟨ht, htw⟩
      | succ n =>
        exact hidx n (by simpa using hi) (by simpa using hi')

/-- Witness for C6 on a two-task document (monday, friday). -/
theorem C6_task_sequence_witness :
    testDoc.vars = some [("a", 1)]
    ∧ ∃ L, buildTasks [("monday", testDesc), ("friday", testDesc)] testDoc 0 "en_US" = .ok L
      ∧ L.length = [("monday", testDesc), ("friday", testDesc)].length
      ∧ ∀ i (hi : i < L.length)
          (hi' : i < ([("monday", testDesc), ("friday", testDesc)] : PyDict (TaskDescriptor Nat)).length),
          WeekdayTask.init
              (([("monday", testDesc), ("friday", testDesc)] : PyDict (TaskDescriptor Nat)).get ⟨i, hi'⟩).1
              (([("monday", testDesc), ("friday", testDesc)] : PyDict (TaskDescriptor Nat)).get ⟨i, hi'⟩).2
              testDoc 0 "en_US"
            = .ok (L.get ⟨i, hi⟩)
          ∧ (L.get ⟨i, hi⟩).weekday
            = (([("monday", testDesc), ("friday", testDesc)] : PyDict (TaskDescriptor Nat)).get ⟨i, hi'⟩).1 :=
  ⟨rfl, C6_task_sequence [("monday", testDesc), ("friday", testDesc)] testDoc 0 "en_US" [("a", 1)] rfl⟩

/-- C7: whenever `formatted_date` succeeds, the returned string is the
locale-formatted text `"<full weekday name>, <day-of-month> <full month
name>"` (`strftimeAdB`, day-of-month rendered without leading zero) of the
task's computed date, with its first character uppercased and every
character after the first left unchanged. -/
theorem C7_formatted_date_shape {V α : Type} (host : Host V) (t : WeekdayTask V)
    (today : Int) (s : GState α) (out : String) (s' : GState α)
    (h : formattedDate host t today s = .ok (out, s')) :
    ∃ ld wd c rest,
      host.localeDB t.locale = some ld
      ∧ WEEKDAY_MAP.lookup t.weekday = some wd
      ∧ (strftimeAdB ld (taskDateOrd today t.week_offset wd)).data = c :: rest
      ∧ out.data = host.upper c :: rest := by
  rcases hw : WEEKDAY_MAP.lookup t.weekday with _ | wd
  · simp [formattedDate, hw] at h
  · rcases hdb : host.localeDB t.locale with _ | ld
    · simp [formattedDate, hw, hdb] at h
    · rcases hdt : (strftimeAdB ld (taskDateOrd today t.week_offset wd)).data with _ | ⟨c, rest⟩
      · simp [formattedDate, hw, hdb, hdt] at h
      · refine ⟨ld, wd, c, rest, by simp [hdb], by simp [hw], by simp [hdt], ?_⟩
        simp [formattedDate, hw, hdb, hdt] at h
        rw [← h.1]

/-- Witness for C7: the Wednesday task formats to
`"Wednesday, 14 October"`. -/
theorem C7_formatted_date_shape_witness :
    formattedDate testHost testTask testToday testState
      = .ok ("Wednesday, 14 October", { localeName := "en_US", other := 41 })
    ∧ ∃ ld wd c rest,
        testHost.localeDB testTask.locale = some ld
        ∧ WEEKDAY_MAP.lookup testTask.weekday = some wd
        ∧ (strftimeAdB ld (taskDateOrd testToday testTask.week_offset wd)).data = c :: rest
        ∧ ("Wednesday, 14 October" : String).data = testHost.upper c :: rest :=
  ⟨by rfl,
   C7_formatted_date_shape testHost testTask testToday testState "Wednesday, 14 October"
     { localeName := "en_US", other := 41 } (by rfl)⟩

/-- C8: a successful access of `formatted_date` leaves the process-wide
locale set to the task's locale identifier (not restored to its previous
value), and neither it nor a successful run of the whole render pipeline
modifies any process-wide state other than the locale. -/
theorem C8_locale_side_effect {V α : Type} (host : Host V) (t : WeekdayTask V)
    (template : String) (data : Document V) (locale : String)
    (week_offset today : Int) (s : GState α) :
    (∀ out s', formattedDate host t today s = .ok (out, s') →
        s'.localeName = t.locale ∧ s'.other = s.other)
    ∧ (∀ out s', render_template host template data locale week_offset today s
          = .ok (out, s') → s'.other = s.other) :=
  ⟨fun out s' h => formattedDate_state host t today s out s' h,
   fun out s' h => render_other host template data locale week_offset today s out s' h⟩

/-- Witness for C8: the Wednesday task's access sets the locale from `"C"`
to `"en_US"` and keeps `other = 41`; a full render does the same. -/
theorem C8_locale_side_effect_witness :
    (formattedDate testHost testTask testToday testState
        = .ok ("Wednesday, 14 October", { localeName := "en_US", other := 41 })
      ∧ (GState.mk "en_US" 41).localeName = testTask.locale
      ∧ (GState.mk "en_US" 41).other = testState.other)
    ∧ (render_template testHost "T" testDoc "en_US" 0 testToday testState
        = .ok ("TMonday, 12 OctoberFriday, 16 October", { localeName := "en_US", other := 41 })
      ∧ (GState.mk "en_US" 41).other = testState.other) :=
  ⟨⟨by rfl,
    (C8_locale_side_effect testHost testTask "T" testDoc "en_US" 0 testToday testState).1
      "Wednesday, 14 October" { localeName := "en_US", other := 41 } (by rfl)⟩,
   ⟨by rfl,
    (C8_locale_side_effect testHost testTask "T" testDoc "en_US" 0 testToday testState).2
      "TMonday, 12 OctoberFriday, 16 October" { localeName := "en_US", other := 41 } (by rfl)⟩⟩

/-- C9: for every weekday string (recognized or not), descriptor, and parent
document carrying the `variables` key, constructing a `WeekdayTask`
succeeds, storing the weekday name unvalidated — so `UnknownWeekday` can
only arise later, when `formatted_date` is read. -/
theorem C9_construction_unvalidated {V : Type} (weekday : String) (d : TaskDescriptor V)
    (parent : Document V) (week_offset : Int) (locale : String) (pv : PyDict V)
    (h : parent.vars = some pv) :
    ∃ t, WeekdayTask.init weekday d parent week_offset locale = .ok t
      ∧ t.weekday = weekday := by
  simp only [WeekdayTask.init, h]
  exact ⟨_, rfl, rfl⟩

/-- Witness for C9: construction succeeds even for the unrecognized
weekday name `"funday"`. -/
theorem C9_construction_unvalidated_witness :
    testDoc.vars = some [("a", 1)]
    ∧ ∃ t, WeekdayTask.init "funday" testDesc testDoc 0 "en_US" = .ok t
        ∧ t.weekday = "funday" :=
  ⟨rfl, C9_construction_unvalidated "funday" testDesc testDoc 0 "en_US" [("a", 1)] rfl⟩

/-- C10: for every recognized weekday name and week offset, two "today"
dates lying in the same Monday-to-Sunday week (that is, sharing the same
week's Monday) give the identical computed date. -/
theorem C10_same_week_same_date (d : String) (wd : Nat)
    (h : WEEKDAY_MAP.lookup d = some wd) (w t1 t2 : Int)
    (hw : t1 - pyWeekday t1 = t2 - pyWeekday t2) :
    taskDateOrd t1 w wd = taskDateOrd t2 w wd := by
  simp only [taskDateOrd, pyWeekday] at *
  omega

/-- Witness for C10: Monday 2026-10-12 and Sunday 2026-10-18 share their
week's Monday, so the Friday date two weeks out is the same. -/
theorem C10_same_week_same_date_witness :
    WEEKDAY_MAP.lookup "friday" = some 4
    ∧ (739901 : Int) - pyWeekday 739901 = 739907 - pyWeekday 739907
    ∧ taskDateOrd 739901 2 4 = taskDateOrd 739907 2 4 :=
  ⟨rfl, by decide, C10_same_week_same_date "friday" 4 rfl 2 739901 739907 (by decide)⟩

end Later
